import Mathlib

/-!
Shallow embedding of the `leptos-winit` crate (file `src/lib.rs`), which
exports a single Leptos component `Winit`.  The component:
  1. checks `document().get_element_by_id("Winit")` and, when an element is
     found, logs an error and returns `None`;
  2. otherwise creates a `canvas` element with id `"Winit"` and a node
     reference to it (the reference resolution is guarded by an `expect`);
  3. logs a warning, builds one winit `EventLoop` and one `Window` attached
     to the canvas, with the untracked initial title and inner size (the
     window build is guarded by an `expect`);
  4. registers a reactive effect whose body sets the inner size from the
     current `width`/`height` signals and the title from the current `alt`
     signal;
  5. spawns a local task that awaits the caller-supplied `program` with the
     event loop (by value) and an `Rc` of the window, and logs a warning
     once the future completes;
  6. returns the canvas element as its view.

The embedding records every externally visible action of the component in
an operation trace, models panics (`expect`) explicitly, models the page as
a list of DOM elements, and models the Leptos signals used by the effect as
time-indexed streams.
-/

namespace LeptosWinit

/-- Logical size passed to `with_inner_size` / `set_inner_size`
(`winit::dpi::LogicalSize::new(width, height)`). -/
structure LogicalSize where
  width : Nat
  height : Nat
deriving DecidableEq

/-- DOM element with a tag name and an `id` attribute. -/
structure Element where
  tag : String
  id : String
deriving DecidableEq

/-- State of a winit `Window`: the canvas it was built on
(`with_canvas`), its title and its inner size. -/
structure Window where
  canvas : Element
  title : String
  inner_size : LogicalSize
deriving DecidableEq

/-- The page (document): the list of mounted DOM elements. -/
structure Page where
  elements : List Element
deriving DecidableEq

/-- Model of `document().get_element_by_id(s)`: the first mounted element
whose id is `s`. -/
def get_element_by_id (p : Page) (s : String) : Option Element :=
  p.elements.find? (fun e => e.id == s)

/-- Operations the window exposes and that the reactive effect performs. -/
inductive WindowOp where
  | set_inner_size (s : LogicalSize)
  | set_title (t : String)
deriving DecidableEq

/-- Events of the spawned local task
(`spawn_local(async move { program(event_loop, window).await; log::warn!(...) })`).
`invoke_program` records the arguments handed to `program`: the event loop
(by value, identified by its creation index) and the shared `Rc<Window>`
handle. `program_step` stands for an internal step of the caller-supplied
future, `future_complete` for its completion. -/
inductive TaskEvent where
  | invoke_program (event_loop : Nat) (window : Window)
  | program_step
  | future_complete
  | log_warn (msg : String)
deriving DecidableEq

/-- Externally visible operations of one component invocation, in program
order.  The constructors `register_cleanup`, `destroy_window`,
`destroy_event_loop` and `remove_element` exist so that the absence of any
lifecycle management is a statement about possible operations, not about an
empty type. -/
inductive Op where
  | log_error (msg : String)
  | log_warn (msg : String)
  | create_element (e : Element)
  | create_event_loop (id : Nat)
  | create_window (w : Window)
  | register_effect
  | spawn_task (body : List TaskEvent)
  | register_cleanup
  | destroy_window
  | destroy_event_loop
  | remove_element (id : String)
deriving DecidableEq

/-- Result of running the component body: either a Rust panic (from one of
the two `expect` calls), carrying the operations performed before the
panic, or a normal return carrying the operation trace and the returned
view (`Option` of an element). -/
inductive CompResult where
  | panicked (msg : String) (ops : List Op)
  | returned (ops : List Op) (view : Option Element)
deriving DecidableEq

/-- Operation trace of a component result. -/
def CompResult.trace : CompResult → List Op
  | .panicked _ t => t
  | .returned t _ => t

/-- View of a component result (a panic unwinds, so nothing is returned and
nothing gets mounted). -/
def CompResult.view : CompResult → Option Element
  | .panicked _ _ => none
  | .returned _ v => v

/-- Reserved identifier checked by the duplicate-instantiation guard
(`get_element_by_id("Winit")`, line 82). -/
def reservedId : String := "Winit"

/-- Error message logged on the duplicate-instantiation path. -/
def dupErrorMsg : String :=
  "leptos_winit: You might be trying to create multiple Winit widgets. See the docs to understand why this is not allowed"

/-- Warning logged just before the event loop is built. -/
def creatingEventLoopMsg : String :=
  "Creating EventLoop, make sure this happens only once!"

/-- Warning logged by the spawned task after `program` returns. -/
def exitedMsg : String := "Winit EventLoop exited"

/-- Panic message of `canvas_ref.get_untracked().expect(...)`. -/
def canvasExpectMsg : String := "Failed to reference canvas element"

/-- Panic message of `WindowBuilder::build(&event_loop).expect(...)`. -/
def windowExpectMsg : String := "Failed to initialize winit window"

/-- Canvas element created by the component:
`leptos::html::canvas().id("Winit")` (line 97). -/
def winitCanvas : Element := { tag := "canvas", id := "Winit" }

/-- Body of the spawned local task: invoke `program` with the event loop
and the window handle, run the caller-supplied future (`programSteps`
abstract internal steps) to completion, then log the exit warning. -/
def spawnBody (programSteps : Nat) (el : Nat) (window : Window) :
    List TaskEvent :=
  TaskEvent.invoke_program el window ::
    (List.replicate programSteps TaskEvent.program_step ++
      [TaskEvent.future_complete, TaskEvent.log_warn exitedMsg])

/-- The `Winit` component body, translated from `src/lib.rs` lines 82-145.
`page` is the current document; `width0`, `height0`, `alt0` are the
untracked values of the `width`, `height` and `alt` inputs at construction
time (`get_untracked`); `programSteps` abstracts the caller-supplied
future; `nodeRefFilled` and `windowBuildOk` are oracles for the two
fallible library calls guarded by `expect`. -/
def Winit (page : Page) (width0 height0 : Nat) (alt0 : String)
    (programSteps : Nat) (nodeRefFilled : Bool) (windowBuildOk : Bool) :
    CompResult :=
  match get_element_by_id page reservedId with
  | some _ =>
      CompResult.returned [Op.log_error dupErrorMsg] none
  | none =>
      if nodeRefFilled = false then
        CompResult.panicked canvasExpectMsg [Op.create_element winitCanvas]
      else if windowBuildOk = false then
        CompResult.panicked windowExpectMsg
          [Op.create_element winitCanvas,
           Op.log_warn creatingEventLoopMsg,
           Op.create_event_loop 0]
      else
        let window : Window :=
          { canvas := winitCanvas, title := alt0,
            inner_size := { width := width0, height := height0 } }
        CompResult.returned
          [Op.create_element winitCanvas,
           Op.log_warn creatingEventLoopMsg,
           Op.create_event_loop 0,
           Op.create_window window,
           Op.register_effect,
           Op.spawn_task (spawnBody programSteps 0 window)]
          (some winitCanvas)

/-- Mounting the view returned by the component into the page (Leptos
appends the returned element to the document; `None` mounts nothing). -/
def mountView (p : Page) : Option Element → Page
  | none => p
  | some e => { elements := p.elements ++ [e] }

/-- One full invocation step: run the component body on the page, then
mount whatever view it returned.  A panic unwinds before anything is
returned, so it mounts nothing. -/
def invoke (p : Page) (w h : Nat) (a : String) (ps : Nat) (nr wb : Bool) :
    Page :=
  mountView p (Winit p w h a ps nr wb).view

/-- Argument bundle of one component invocation. -/
structure Args where
  w : Nat
  h : Nat
  a : String
  ps : Nat
  nr : Bool
  wb : Bool

/-- The component applied to an argument bundle. -/
def WinitA (p : Page) (x : Args) : CompResult :=
  Winit p x.w x.h x.a x.ps x.nr x.wb

/-- One invocation step applied to an argument bundle. -/
def invokeA (p : Page) (x : Args) : Page :=
  mountView p (WinitA p x).view

/-- Number of `create_element` operations in a trace. -/
def createdCanvases (t : List Op) : Nat :=
  t.countP (fun o => match o with | Op.create_element _ => true | _ => false)

/-- Number of `create_event_loop` operations in a trace. -/
def createdEventLoops (t : List Op) : Nat :=
  t.countP (fun o => match o with | Op.create_event_loop _ => true | _ => false)

/-- Number of `create_window` operations in a trace. -/
def createdWindows (t : List Op) : Nat :=
  t.countP (fun o => match o with | Op.create_window _ => true | _ => false)

/-- Number of `spawn_task` operations in a trace. -/
def spawnedTasks (t : List Op) : Nat :=
  t.countP (fun o => match o with | Op.spawn_task _ => true | _ => false)

/-- Number of `invoke_program` events in a task body. -/
def programInvocations (b : List TaskEvent) : Nat :=
  b.countP (fun e => match e with | TaskEvent.invoke_program _ _ => true | _ => false)

/-- Number of exit warnings in a task body. -/
def exitWarnings (b : List TaskEvent) : Nat :=
  b.countP (fun e => match e with
    | TaskEvent.log_warn m => m == exitedMsg
    | _ => false)

/-- Number of mounted elements carrying the reserved id. -/
def countWinitElems (p : Page) : Nat :=
  p.elements.countP (fun e => e.id == reservedId)

/-- Lifecycle-management operations: cleanup registration, destruction or
removal.  The component never emits any of these. -/
def isLifecycleOp : Op → Bool
  | Op.register_cleanup => true
  | Op.destroy_window => true
  | Op.destroy_event_loop => true
  | Op.remove_element _ => true
  | _ => false

/-- Number of lifecycle-management operations in a trace. -/
def lifecycleOps (t : List Op) : Nat :=
  t.countP isLifecycleOp

/-- Body of the reactive effect registered by the component (lines
129-135): set the inner size from the current width and height, then set
the title from the current alt value. -/
def winitEffectBody (w h : Nat) (t : String) : List WindowOp :=
  [WindowOp.set_inner_size { width := w, height := h },
   WindowOp.set_title t]

/-- Leptos effect scheduling: `create_effect` runs the effect once
immediately at registration (time 0) and re-runs it at any later time at
which at least one of the signals the body reads has changed. -/
def effectRunsAt (width height : Nat → Nat) (alt : Nat → String) :
    Nat → Bool
  | 0 => true
  | Nat.succ t =>
      (width (t + 1) != width t) || (height (t + 1) != height t) ||
        (alt (t + 1) != alt t)

/-- Window operations performed by the effect at time `t`: the whole body
when it runs, nothing when it does not. -/
def effectOpsAt (width height : Nat → Nat) (alt : Nat → String) (t : Nat) :
    List WindowOp :=
  if effectRunsAt width height alt t then
    winitEffectBody (width t) (height t) (alt t)
  else []

/-- Applying one window operation to a window. -/
def applyWindowOp (w : Window) : WindowOp → Window
  | WindowOp.set_inner_size s => { w with inner_size := s }
  | WindowOp.set_title t => { w with title := t }

/-- Applying a list of window operations in order. -/
def applyWindowOps (w : Window) (ops : List WindowOp) : Window :=
  ops.foldl applyWindowOp w

/-- Equation for the component on the duplicate path. -/
theorem Winit_eq_of_found (page : Page) (w h : Nat) (a : String) (ps : Nat)
    (nr wb : Bool) (e : Element)
    (hdup : get_element_by_id page reservedId = some e) :
    Winit page w h a ps nr wb =
      CompResult.returned [Op.log_error dupErrorMsg] none := by
  unfold Winit
  rw [hdup]

/-- Equation for the component on the success path. -/
theorem Winit_eq_of_success (page : Page) (w h : Nat) (a : String) (ps : Nat)
    (hno : get_element_by_id page reservedId = none) :
    Winit page w h a ps true true =
      CompResult.returned
        [Op.create_element winitCanvas,
         Op.log_warn creatingEventLoopMsg,
         Op.create_event_loop 0,
         Op.create_window
           { canvas := winitCanvas, title := a,
             inner_size := { width := w, height := h } },
         Op.register_effect,
         Op.spawn_task (spawnBody ps 0
           { canvas := winitCanvas, title := a,
             inner_size := { width := w, height := h } })]
        (some winitCanvas) := by
  unfold Winit
  rw [hno]
  rfl

/-- Equation for the component when the node reference fails to resolve. -/
theorem Winit_eq_of_noderef_failure (page : Page) (w h : Nat) (a : String)
    (ps : Nat) (wb : Bool)
    (hno : get_element_by_id page reservedId = none) :
    Winit page w h a ps false wb =
      CompResult.panicked canvasExpectMsg [Op.create_element winitCanvas] := by
  unfold Winit
  rw [hno]
  rfl

/-- Equation for the component when the window build fails. -/
theorem Winit_eq_of_build_failure (page : Page) (w h : Nat) (a : String)
    (ps : Nat)
    (hno : get_element_by_id page reservedId = none) :
    Winit page w h a ps true false =
      CompResult.panicked windowExpectMsg
        [Op.create_element winitCanvas,
         Op.log_warn creatingEventLoopMsg,
         Op.create_event_loop 0] := by
  unfold Winit
  rw [hno]
  rfl

/-- C1: when the document already contains an element with the reserved id
"Winit", the component logs the duplicate error and returns no view; its
trace creates no canvas, no event loop and no window, and the page after
the invocation is unchanged. -/
theorem C1_duplicate_guard (page : Page) (w h : Nat) (a : String) (ps : Nat)
    (nr wb : Bool) (e : Element)
    (hdup : get_element_by_id page reservedId = some e) :
    Winit page w h a ps nr wb =
      CompResult.returned [Op.log_error dupErrorMsg] none ∧
    createdCanvases (Winit page w h a ps nr wb).trace = 0 ∧
    createdEventLoops (Winit page w h a ps nr wb).trace = 0 ∧
    createdWindows (Winit page w h a ps nr wb).trace = 0 ∧
    spawnedTasks (Winit page w h a ps nr wb).trace = 0 ∧
    invoke page w h a ps nr wb = page := by
  have h1 := Winit_eq_of_found page w h a ps nr wb e hdup
  exact ⟨h1, by rw [h1]; rfl, by rw [h1]; rfl, by rw [h1]; rfl,
    by rw [h1]; rfl, by unfold invoke; rw [h1]; rfl⟩

/-- C1 witness: a page holding a stray element with id "Winit". -/
theorem C1_duplicate_guard_witness :
    Winit { elements := [{ tag := "div", id := "Winit" }] } 5 6 "t" 0 true true =
      CompResult.returned [Op.log_error dupErrorMsg] none ∧
    createdCanvases
      (Winit { elements := [{ tag := "div", id := "Winit" }] } 5 6 "t" 0
        true true).trace = 0 ∧
    createdEventLoops
      (Winit { elements := [{ tag := "div", id := "Winit" }] } 5 6 "t" 0
        true true).trace = 0 ∧
    createdWindows
      (Winit { elements := [{ tag := "div", id := "Winit" }] } 5 6 "t" 0
        true true).trace = 0 ∧
    spawnedTasks
      (Winit { elements := [{ tag := "div", id := "Winit" }] } 5 6 "t" 0
        true true).trace = 0 ∧
    invoke { elements := [{ tag := "div", id := "Winit" }] } 5 6 "t" 0
      true true = { elements := [{ tag := "div", id := "Winit" }] } :=
  C1_duplicate_guard { elements := [{ tag := "div", id := "Winit" }] } 5 6
    "t" 0 true true { tag := "div", id := "Winit" } (by decide)

/-- Unfolding equation for `effectRunsAt` at a successor time. -/
theorem effectRunsAt_succ (width height : Nat → Nat) (alt : Nat → String)
    (t : Nat) :
    effectRunsAt width height alt (t + 1) =
      ((width (t + 1) != width t) || (height (t + 1) != height t) ||
        (alt (t + 1) != alt t)) := rfl

/-- Helper: when at least one of the three signals changes at step `t + 1`,
the effect runs there and performs its whole body on the current values. -/
theorem effectOps_succ_of_change (width height : Nat → Nat)
    (alt : Nat → String) (t : Nat)
    (hchange : width (t + 1) ≠ width t ∨ height (t + 1) ≠ height t ∨
      alt (t + 1) ≠ alt t) :
    effectOpsAt width height alt (t + 1) =
      [WindowOp.set_inner_size
         { width := width (t + 1), height := height (t + 1) },
       WindowOp.set_title (alt (t + 1))] := by
  have hrun : effectRunsAt width height alt (t + 1) = true := by
    rw [effectRunsAt_succ]
    simp only [Bool.or_eq_true, bne_iff_ne, ne_eq]
    rcases hchange with h | h | h
    · exact Or.inl (Or.inl h)
    · exact Or.inl (Or.inr h)
    · exact Or.inr h
  unfold effectOpsAt
  rw [hrun]
  rfl

/-- C2: whenever any of the width, height or title signals changes, the
registered effect runs and pushes the new values onto the window: its body
is a `set_inner_size` call with the current width and height followed by a
`set_title` call with the current title, and after applying it the window
holds exactly those values. -/
theorem C2_effect_pushes_values (width height : Nat → Nat)
    (alt : Nat → String) (t : Nat)
    (hchange : width (t + 1) ≠ width t ∨ height (t + 1) ≠ height t ∨
      alt (t + 1) ≠ alt t) :
    effectOpsAt width height alt (t + 1) =
      [WindowOp.set_inner_size
         { width := width (t + 1), height := height (t + 1) },
       WindowOp.set_title (alt (t + 1))] ∧
    ∀ win : Window,
      (applyWindowOps win (effectOpsAt width height alt (t + 1))).inner_size =
        { width := width (t + 1), height := height (t + 1) } ∧
      (applyWindowOps win (effectOpsAt width height alt (t + 1))).title =
        alt (t + 1) := by
  have hops := effectOps_succ_of_change width height alt t hchange
  refine ⟨hops, ?_⟩
  intro win
  rw [hops]
  exact ⟨rfl, rfl⟩

/-- C2 witness: the width signal grows by one each step while height and
title stay fixed; at step 1 the effect pushes the current values. -/
theorem C2_effect_pushes_values_witness :
    effectOpsAt (fun n => 500 + n) (fun _ => 500) (fun _ => "T") (0 + 1) =
      [WindowOp.set_inner_size { width := 500 + (0 + 1), height := 500 },
       WindowOp.set_title "T"] ∧
    ∀ win : Window,
      (applyWindowOps win
        (effectOpsAt (fun n => 500 + n) (fun _ => 500) (fun _ => "T")
          (0 + 1))).inner_size =
        { width := 500 + (0 + 1), height := 500 } ∧
      (applyWindowOps win
        (effectOpsAt (fun n => 500 + n) (fun _ => 500) (fun _ => "T")
          (0 + 1))).title = "T" :=
  C2_effect_pushes_values (fun n => 500 + n) (fun _ => 500) (fun _ => "T") 0
    (Or.inl (by decide))

/-- C10: the effect body reads all three signals, so the effect runs once
immediately at registration (time 0), pushing the initial size and title
onto the window again, and a change to any single one of the three signals
re-runs the whole body: both `set_inner_size` and `set_title` are performed
even when only one input changed. -/
theorem C10_effect_initial_run_and_full_repush (width height : Nat → Nat)
    (alt : Nat → String) (t : Nat) :
    effectRunsAt width height alt 0 = true ∧
    effectOpsAt width height alt 0 =
      [WindowOp.set_inner_size { width := width 0, height := height 0 },
       WindowOp.set_title (alt 0)] ∧
    (width (t + 1) ≠ width t →
      effectOpsAt width height alt (t + 1) =
        [WindowOp.set_inner_size
           { width := width (t + 1), height := height (t + 1) },
         WindowOp.set_title (alt (t + 1))]) ∧
    (height (t + 1) ≠ height t →
      effectOpsAt width height alt (t + 1) =
        [WindowOp.set_inner_size
           { width := width (t + 1), height := height (t + 1) },
         WindowOp.set_title (alt (t + 1))]) ∧
    (alt (t + 1) ≠ alt t →
      effectOpsAt width height alt (t + 1) =
        [WindowOp.set_inner_size
           { width := width (t + 1), height := height (t + 1) },
         WindowOp.set_title (alt (t + 1))]) := by
  refine ⟨rfl, rfl, ?_, ?_, ?_⟩
  · intro h
    exact effectOps_succ_of_change width height alt t (Or.inl h)
  · intro h
    exact effectOps_succ_of_change width height alt t (Or.inr (Or.inl h))
  · intro h
    exact effectOps_succ_of_change width height alt t (Or.inr (Or.inr h))

/-- C10 witness: only the title changes at step 1, yet both window
operations are performed; and the effect runs at time 0 on the initial
values. -/
theorem C10_effect_initial_run_and_full_repush_witness :
    effectRunsAt (fun _ => 7) (fun _ => 9) (fun n => String.append "T"
      (Nat.repr n)) 0 = true ∧
    effectOpsAt (fun _ => 7) (fun _ => 9) (fun n => String.append "T"
      (Nat.repr n)) 0 =
      [WindowOp.set_inner_size { width := 7, height := 9 },
       WindowOp.set_title (String.append "T" (Nat.repr 0))] ∧
    effectOpsAt (fun _ => 7) (fun _ => 9) (fun n => String.append "T"
      (Nat.repr n)) (0 + 1) =
      [WindowOp.set_inner_size { width := 7, height := 9 },
       WindowOp.set_title (String.append "T" (Nat.repr (0 + 1)))] := by
  have h := C10_effect_initial_run_and_full_repush (fun _ => 7) (fun _ => 9)
    (fun n => String.append "T" (Nat.repr n)) 0
  exact ⟨h.1, h.2.1, h.2.2.2.2 (by decide)⟩

/-- C3: on the success path the component builds exactly one event loop and
exactly one window; the window is bound to the created canvas and its
initial title and inner size are the construction-time values of the title,
width and height inputs. -/
theorem C3_success_construction (page : Page) (w h : Nat) (a : String)
    (ps : Nat) (hno : get_element_by_id page reservedId = none) :
    createdEventLoops (Winit page w h a ps true true).trace = 1 ∧
    createdWindows (Winit page w h a ps true true).trace = 1 ∧
    Op.create_window
        { canvas := winitCanvas, title := a,
          inner_size := { width := w, height := h } } ∈
      (Winit page w h a ps true true).trace ∧
    (∀ win : Window,
      Op.create_window win ∈ (Winit page w h a ps true true).trace →
        win = { canvas := winitCanvas, title := a,
                inner_size := { width := w, height := h } }) := by
  have h1 := Winit_eq_of_success page w h a ps hno
  refine ⟨by rw [h1]; rfl, by rw [h1]; rfl, ?_, ?_⟩
  · rw [h1]
    simp [CompResult.trace]
  · intro win hmem
    rw [h1] at hmem
    simp [CompResult.trace] at hmem
    exact hmem

/-- C3 witness: success-path construction on the empty page. -/
theorem C3_success_construction_witness :
    createdEventLoops (Winit { elements := [] } 30 40 "T" 2 true true).trace
      = 1 ∧
    createdWindows (Winit { elements := [] } 30 40 "T" 2 true true).trace
      = 1 ∧
    Op.create_window
        { canvas := winitCanvas, title := "T",
          inner_size := { width := 30, height := 40 } } ∈
      (Winit { elements := [] } 30 40 "T" 2 true true).trace ∧
    (∀ win : Window,
      Op.create_window win ∈
          (Winit { elements := [] } 30 40 "T" 2 true true).trace →
        win = { canvas := winitCanvas, title := "T",
                inner_size := { width := 30, height := 40 } }) :=
  C3_success_construction { elements := [] } 30 40 "T" 2 rfl

/-- C6: on the success path the component creates one canvas element (with
tag "canvas") and the view it returns is precisely that created element. -/
theorem C6_view_is_created_canvas (page : Page) (w h : Nat) (a : String)
    (ps : Nat) (hno : get_element_by_id page reservedId = none) :
    (Winit page w h a ps true true).view = some winitCanvas ∧
    Op.create_element winitCanvas ∈ (Winit page w h a ps true true).trace ∧
    createdCanvases (Winit page w h a ps true true).trace = 1 ∧
    (∀ e : Element,
      Op.create_element e ∈ (Winit page w h a ps true true).trace →
        e = winitCanvas) ∧
    winitCanvas.tag = "canvas" := by
  have h1 := Winit_eq_of_success page w h a ps hno
  refine ⟨by rw [h1]; rfl, ?_, by rw [h1]; rfl, ?_, rfl⟩
  · rw [h1]
    simp [CompResult.trace]
  · intro e hmem
    rw [h1] at hmem
    simp [CompResult.trace] at hmem
    exact hmem

/-- C6 witness: success-path view on the empty page. -/
theorem C6_view_is_created_canvas_witness :
    (Winit { elements := [] } 30 40 "T" 2 true true).view =
      some winitCanvas ∧
    Op.create_element winitCanvas ∈
      (Winit { elements := [] } 30 40 "T" 2 true true).trace ∧
    createdCanvases (Winit { elements := [] } 30 40 "T" 2 true true).trace
      = 1 ∧
    (∀ e : Element,
      Op.create_element e ∈
          (Winit { elements := [] } 30 40 "T" 2 true true).trace →
        e = winitCanvas) ∧
    winitCanvas.tag = "canvas" :=
  C6_view_is_created_canvas { elements := [] } 30 40 "T" 2 rfl

/-- Helper: a predicate that is false on `program_step` counts zero
occurrences in a replicated run of program steps. -/
theorem countP_replicate_step (f : TaskEvent → Bool)
    (hf : f TaskEvent.program_step = false) (n : Nat) :
    List.countP f (List.replicate n TaskEvent.program_step) = 0 := by
  induction n with
  | zero => rfl
  | succ m ih =>
      rw [List.replicate_succ, List.countP_cons, hf]
      simpa using ih

/-- Helper: the spawned task body invokes `program` exactly once. -/
theorem programInvocations_spawnBody (ps el : Nat) (W : Window) :
    programInvocations (spawnBody ps el W) = 1 := by
  unfold programInvocations spawnBody
  rw [List.countP_cons, List.countP_append, countP_replicate_step _ rfl]
  rfl

/-- Helper: the spawned task body logs the exit warning exactly once. -/
theorem exitWarnings_spawnBody (ps el : Nat) (W : Window) :
    exitWarnings (spawnBody ps el W) = 1 := by
  unfold exitWarnings spawnBody
  rw [List.countP_cons, List.countP_append, countP_replicate_step _ rfl]
  rfl

/-- Helper: the future-completion event followed by the exit warning occurs
as a subsequence of the spawned task body (completion comes first). -/
theorem complete_then_warn_sublist (ps el : Nat) (W : Window) :
    List.Sublist [TaskEvent.future_complete, TaskEvent.log_warn exitedMsg]
      (spawnBody ps el W) := by
  unfold spawnBody
  exact List.Sublist.cons _ (List.sublist_append_right _ _)

/-- Helper: the future-completion event sits at index `ps + 1` of the
spawned task body. -/
theorem spawnBody_complete_at (ps el : Nat) (W : Window) :
    (spawnBody ps el W).get? (ps + 1) = some TaskEvent.future_complete := by
  unfold spawnBody
  rw [List.get?_cons_succ]
  rw [List.get?_append_right (by simp)]
  simp

/-- Helper: the exit warning occurs only at index `ps + 2` of the spawned
task body, strictly after the future-completion event. -/
theorem spawnBody_warn_index (el : Nat) (W : Window) : ∀ (ps i : Nat),
    (spawnBody ps el W).get? i = some (TaskEvent.log_warn exitedMsg) →
    i = ps + 2 := by
  intro ps
  induction ps with
  | zero =>
      intro i hi
      match i with
      | 0 => simp [spawnBody] at hi
      | 1 => simp [spawnBody] at hi
      | 2 => rfl
      | n + 3 =>
          have hnone : (spawnBody 0 el W).get? (n + 3) = none := by
            rw [List.get?_eq_none]
            simp [spawnBody]
          rw [hnone] at hi
          exact Option.noConfusion hi
  | succ n ih =>
      intro i hi
      match i with
      | 0 =>
          simp [spawnBody] at hi
      | j + 1 =>
          have h2 : (spawnBody n el W).get? j =
              some (TaskEvent.log_warn exitedMsg) := by
            unfold spawnBody at hi ⊢
            rw [List.get?_cons_succ] at hi
            rw [List.replicate_succ, List.cons_append] at hi
            match j with
            | 0 =>
                rw [List.get?_cons_zero] at hi
                simp at hi
            | k + 1 =>
                rw [List.get?_cons_succ] at hi
                rw [List.get?_cons_succ]
                exact hi
          have := ih j h2
          omega

/-- C4: on the success path exactly one task is spawned; its body invokes
the caller-supplied `program` exactly once, as its very first event,
passing the event loop that was constructed (by value) and a shared handle
to the very window that was constructed; the "Winit EventLoop exited"
warning is logged exactly once, and a future-completion event precedes it
in the body (the warning comes only after the future completes, never
before). -/
theorem C4_program_launch (page : Page) (w h : Nat) (a : String) (ps : Nat)
    (hno : get_element_by_id page reservedId = none) :
    Op.spawn_task (spawnBody ps 0
        { canvas := winitCanvas, title := a,
          inner_size := { width := w, height := h } }) ∈
      (Winit page w h a ps true true).trace ∧
    spawnedTasks (Winit page w h a ps true true).trace = 1 ∧
    Op.create_event_loop 0 ∈ (Winit page w h a ps true true).trace ∧
    Op.create_window
        { canvas := winitCanvas, title := a,
          inner_size := { width := w, height := h } } ∈
      (Winit page w h a ps true true).trace ∧
    (spawnBody ps 0
        { canvas := winitCanvas, title := a,
          inner_size := { width := w, height := h } }).head? =
      some (TaskEvent.invoke_program 0
        { canvas := winitCanvas, title := a,
          inner_size := { width := w, height := h } }) ∧
    programInvocations (spawnBody ps 0
        { canvas := winitCanvas, title := a,
          inner_size := { width := w, height := h } }) = 1 ∧
    exitWarnings (spawnBody ps 0
        { canvas := winitCanvas, title := a,
          inner_size := { width := w, height := h } }) = 1 ∧
    List.Sublist [TaskEvent.future_complete, TaskEvent.log_warn exitedMsg]
      (spawnBody ps 0
        { canvas := winitCanvas, title := a,
          inner_size := { width := w, height := h } }) ∧
    (spawnBody ps 0
        { canvas := winitCanvas, title := a,
          inner_size := { width := w, height := h } }).get? (ps + 1) =
      some TaskEvent.future_complete ∧
    (∀ i : Nat,
      (spawnBody ps 0
          { canvas := winitCanvas, title := a,
            inner_size := { width := w, height := h } }).get? i =
        some (TaskEvent.log_warn exitedMsg) → i = ps + 2) := by
  have h1 := Winit_eq_of_success page w h a ps hno
  refine ⟨?_, by rw [h1]; rfl, ?_, ?_, rfl,
    programInvocations_spawnBody ps 0 _,
    exitWarnings_spawnBody ps 0 _,
    complete_then_warn_sublist ps 0 _,
    spawnBody_complete_at ps 0 _,
    spawnBody_warn_index 0 _ ps⟩
  · rw [h1]
    simp [CompResult.trace]
  · rw [h1]
    simp [CompResult.trace]
  · rw [h1]
    simp [CompResult.trace]

/-- C4 witness: spawn behaviour on the empty page with a two-step program
future. -/
theorem C4_program_launch_witness :
    Op.spawn_task (spawnBody 2 0
        { canvas := winitCanvas, title := "T",
          inner_size := { width := 30, height := 40 } }) ∈
      (Winit { elements := [] } 30 40 "T" 2 true true).trace ∧
    spawnedTasks (Winit { elements := [] } 30 40 "T" 2 true true).trace
      = 1 ∧
    Op.create_event_loop 0 ∈
      (Winit { elements := [] } 30 40 "T" 2 true true).trace ∧
    Op.create_window
        { canvas := winitCanvas, title := "T",
          inner_size := { width := 30, height := 40 } } ∈
      (Winit { elements := [] } 30 40 "T" 2 true true).trace ∧
    (spawnBody 2 0
        { canvas := winitCanvas, title := "T",
          inner_size := { width := 30, height := 40 } }).head? =
      some (TaskEvent.invoke_program 0
        { canvas := winitCanvas, title := "T",
          inner_size := { width := 30, height := 40 } }) ∧
    programInvocations (spawnBody 2 0
        { canvas := winitCanvas, title := "T",
          inner_size := { width := 30, height := 40 } }) = 1 ∧
    exitWarnings (spawnBody 2 0
        { canvas := winitCanvas, title := "T",
          inner_size := { width := 30, height := 40 } }) = 1 ∧
    List.Sublist [TaskEvent.future_complete, TaskEvent.log_warn exitedMsg]
      (spawnBody 2 0
        { canvas := winitCanvas, title := "T",
          inner_size := { width := 30, height := 40 } }) ∧
    (spawnBody 2 0
        { canvas := winitCanvas, title := "T",
          inner_size := { width := 30, height := 40 } }).get? (2 + 1) =
      some TaskEvent.future_complete ∧
    (∀ i : Nat,
      (spawnBody 2 0
          { canvas := winitCanvas, title := "T",
            inner_size := { width := 30, height := 40 } }).get? i =
        some (TaskEvent.log_warn exitedMsg) → i = 2 + 2) :=
  C4_program_launch { elements := [] } 30 40 "T" 2 rfl

/-- C7: the only failure handling in the component is the duplicate
existence check plus the two `expect`-style fatal assertions: every panic
message is one of the two `expect` messages, a missing canvas reference
panics with the canvas message, a failed window build panics with the
window message, and every normal return is either the guard's error return
or the successful canvas view — no other error value is ever produced. -/
theorem C7_failure_handling (page : Page) (w h : Nat) (a : String) (ps : Nat)
    (nr wb : Bool) :
    (∀ (m : String) (tr : List Op),
      Winit page w h a ps nr wb = CompResult.panicked m tr →
        m = canvasExpectMsg ∨ m = windowExpectMsg) ∧
    (get_element_by_id page reservedId = none → nr = false →
      Winit page w h a ps nr wb =
        CompResult.panicked canvasExpectMsg [Op.create_element winitCanvas]) ∧
    (get_element_by_id page reservedId = none → nr = true → wb = false →
      Winit page w h a ps nr wb =
        CompResult.panicked windowExpectMsg
          [Op.create_element winitCanvas, Op.log_warn creatingEventLoopMsg,
           Op.create_event_loop 0]) ∧
    (∀ (tr : List Op) (v : Option Element),
      Winit page w h a ps nr wb = CompResult.returned tr v →
        (tr = [Op.log_error dupErrorMsg] ∧ v = none) ∨
          v = some winitCanvas) := by
  cases hfind : get_element_by_id page reservedId with
  | some e =>
      have h1 := Winit_eq_of_found page w h a ps nr wb e hfind
      refine ⟨?_, ?_, ?_, ?_⟩
      · intro m tr hm
        rw [h1] at hm
        exact absurd hm (by simp)
      · intro hno
        exact Option.noConfusion hno
      · intro hno
        exact Option.noConfusion hno
      · intro tr v hv
        rw [h1] at hv
        have := (CompResult.returned.injEq _ _ _ _).mp hv.symm
        exact Or.inl ⟨this.1, this.2⟩
  | none =>
      cases nr with
      | false =>
          have h1 := Winit_eq_of_noderef_failure page w h a ps wb hfind
          refine ⟨?_, ?_, ?_, ?_⟩
          · intro m tr hm
            rw [h1] at hm
            have := (CompResult.panicked.injEq _ _ _ _).mp hm.symm
            exact Or.inl this.1
          · intro _ _
            exact h1
          · intro _ hcontra _
            exact absurd hcontra (by simp)
          · intro tr v hv
            rw [h1] at hv
            exact absurd hv (by simp)
      | true =>
          cases wb with
          | false =>
              have h1 := Winit_eq_of_build_failure page w h a ps hfind
              refine ⟨?_, ?_, ?_, ?_⟩
              · intro m tr hm
                rw [h1] at hm
                have := (CompResult.panicked.injEq _ _ _ _).mp hm.symm
                exact Or.inr this.1
              · intro _ hcontra
                exact absurd hcontra (by simp)
              · intro _ _ _
                exact h1
              · intro tr v hv
                rw [h1] at hv
                exact absurd hv (by simp)
          | true =>
              have h1 := Winit_eq_of_success page w h a ps hfind
              refine ⟨?_, ?_, ?_, ?_⟩
              · intro m tr hm
                rw [h1] at hm
                exact absurd hm (by simp)
              · intro _ hcontra
                exact absurd hcontra (by simp)
              · intro _ _ hcontra
                exact absurd hcontra (by simp)
              · intro tr v hv
                rw [h1] at hv
                have := (CompResult.returned.injEq _ _ _ _).mp hv.symm
                exact Or.inr this.2

/-- C7 witness: on the empty page with a failing node reference, the
component panics with the canvas `expect` message. -/
theorem C7_failure_handling_witness :
    Winit { elements := [] } 1 2 "t" 0 false true =
      CompResult.panicked canvasExpectMsg [Op.create_element winitCanvas] :=
  (C7_failure_handling { elements := [] } 1 2 "t" 0 false true).2.1 rfl rfl

/-- C8: the component performs no lifecycle management: on every path its
trace contains no cleanup registration, no destruction of the window or
event loop and no removal of an element, and it never creates a second
canvas, event loop, window or spawned task that would replace the first. -/
theorem C8_no_lifecycle_management (page : Page) (w h : Nat) (a : String)
    (ps : Nat) (nr wb : Bool) :
    lifecycleOps (Winit page w h a ps nr wb).trace = 0 ∧
    createdCanvases (Winit page w h a ps nr wb).trace ≤ 1 ∧
    createdEventLoops (Winit page w h a ps nr wb).trace ≤ 1 ∧
    createdWindows (Winit page w h a ps nr wb).trace ≤ 1 ∧
    spawnedTasks (Winit page w h a ps nr wb).trace ≤ 1 := by
  cases hfind : get_element_by_id page reservedId with
  | some e =>
      rw [Winit_eq_of_found page w h a ps nr wb e hfind]
      exact ⟨rfl, by decide, by decide, by decide, by decide⟩
  | none =>
      cases nr with
      | false =>
          rw [Winit_eq_of_noderef_failure page w h a ps wb hfind]
          exact ⟨rfl, by decide, by decide, by decide, by decide⟩
      | true =>
          cases wb with
          | false =>
              rw [Winit_eq_of_build_failure page w h a ps hfind]
              exact ⟨rfl, by decide, by decide, by decide, by decide⟩
          | true =>
              rw [Winit_eq_of_success page w h a ps hfind]
              exact ⟨rfl, Nat.le_refl 1, Nat.le_refl 1, Nat.le_refl 1,
                Nat.le_refl 1⟩

/-- Helper: `find?` skips a first block in which nothing matches. -/
theorem find?_append_of_none {α : Type} (f : α → Bool) (l1 l2 : List α)
    (h : l1.find? f = none) : (l1 ++ l2).find? f = l2.find? f := by
  induction l1 with
  | nil => rfl
  | cons x xs ih =>
      rw [List.cons_append]
      cases hx : f x with
      | true =>
          rw [List.find?_cons_of_pos _ hx] at h
          exact Option.noConfusion h
      | false =>
          have hx2 : ¬ f x = true := by
            rw [hx]
            exact Bool.false_ne_true
          rw [List.find?_cons_of_neg _ hx2] at h ⊢
          exact ih h

/-- Helper: a page on which the guard finds nothing holds no element with
the reserved id. -/
theorem countWinitElems_eq_zero_of_none (p : Page)
    (hfind : get_element_by_id p reservedId = none) :
    countWinitElems p = 0 := by
  unfold get_element_by_id at hfind
  unfold countWinitElems
  rw [List.countP_eq_zero]
  exact List.find?_eq_none.mp hfind

/-- Helper: one invocation step preserves the bound of at most one element
with the reserved id on the page. -/
theorem countWinit_invoke_le (p : Page) (w h : Nat) (a : String) (ps : Nat)
    (nr wb : Bool) (hp : countWinitElems p ≤ 1) :
    countWinitElems (invoke p w h a ps nr wb) ≤ 1 := by
  cases hfind : get_element_by_id p reservedId with
  | some e =>
      unfold invoke
      rw [Winit_eq_of_found p w h a ps nr wb e hfind]
      exact hp
  | none =>
      have h0 := countWinitElems_eq_zero_of_none p hfind
      cases nr with
      | false =>
          unfold invoke
          rw [Winit_eq_of_noderef_failure p w h a ps wb hfind]
          exact hp
      | true =>
          cases wb with
          | false =>
              unfold invoke
              rw [Winit_eq_of_build_failure p w h a ps hfind]
              exact hp
          | true =>
              unfold invoke
              rw [Winit_eq_of_success p w h a ps hfind]
              show countWinitElems
                { elements := p.elements ++ [winitCanvas] } ≤ 1
              unfold countWinitElems at h0 ⊢
              rw [List.countP_append, h0]
              decide

/-- C5: at most one Winit widget exists per page: starting from a page with
at most one element carrying the reserved id, any sequence of invocations
leaves at most one such element; moreover any invocation on a page that
already holds such an element (in particular, any invocation after a
successful one) creates nothing and leaves the page unchanged. -/
theorem C5_single_instance (p : Page) (xs : List Args)
    (hp : countWinitElems p ≤ 1) :
    countWinitElems (xs.foldl invokeA p) ≤ 1 ∧
    (∀ (q : Page) (x : Args), 1 ≤ countWinitElems q →
      createdCanvases (WinitA q x).trace = 0 ∧
      createdEventLoops (WinitA q x).trace = 0 ∧
      createdWindows (WinitA q x).trace = 0 ∧
      spawnedTasks (WinitA q x).trace = 0 ∧
      invokeA q x = q) := by
  constructor
  · induction xs generalizing p with
    | nil => exact hp
    | cons x rest ih =>
        exact ih (invokeA p x)
          (countWinit_invoke_le p x.w x.h x.a x.ps x.nr x.wb hp)
  · intro q x hq
    have hsome : (q.elements.find? (fun e => e.id == reservedId)).isSome := by
      rw [List.find?_isSome]
      rw [← List.countP_pos_iff]
      exact hq
    obtain ⟨e, hfind⟩ := Option.isSome_iff_exists.mp hsome
    have hfind2 : get_element_by_id q reservedId = some e := hfind
    have h1 := Winit_eq_of_found q x.w x.h x.a x.ps x.nr x.wb e hfind2
    refine ⟨?_, ?_, ?_, ?_, ?_⟩
    · show createdCanvases (Winit q x.w x.h x.a x.ps x.nr x.wb).trace = 0
      rw [h1]
      rfl
    · show createdEventLoops (Winit q x.w x.h x.a x.ps x.nr x.wb).trace = 0
      rw [h1]
      rfl
    · show createdWindows (Winit q x.w x.h x.a x.ps x.nr x.wb).trace = 0
      rw [h1]
      rfl
    · show spawnedTasks (Winit q x.w x.h x.a x.ps x.nr x.wb).trace = 0
      rw [h1]
      rfl
    · show mountView q (Winit q x.w x.h x.a x.ps x.nr x.wb).view = q
      rw [h1]
      rfl

/-- C5 witness: two successive invocations on the empty page leave at most
one element with the reserved id, and an invocation on a page already
holding one changes nothing. -/
theorem C5_single_instance_witness :
    countWinitElems
      (List.foldl invokeA { elements := [] }
        [{ w := 1, h := 2, a := "x", ps := 0, nr := true, wb := true },
         { w := 3, h := 4, a := "y", ps := 1, nr := true, wb := true }]) ≤
      1 ∧
    (createdCanvases
        (WinitA { elements := [winitCanvas] }
          { w := 3, h := 4, a := "y", ps := 1, nr := true, wb := true }).trace
        = 0 ∧
      invokeA { elements := [winitCanvas] }
        { w := 3, h := 4, a := "y", ps := 1, nr := true, wb := true } =
        { elements := [winitCanvas] }) := by
  have h := C5_single_instance { elements := [] }
    [{ w := 1, h := 2, a := "x", ps := 0, nr := true, wb := true },
     { w := 3, h := 4, a := "y", ps := 1, nr := true, wb := true }]
    (by decide)
  have h2 := h.2 { elements := [winitCanvas] }
    { w := 3, h := 4, a := "y", ps := 1, nr := true, wb := true } (by decide)
  exact ⟨h.1, h2.1, h2.2.2.2.2⟩

/-- C9: the reserved identifier checked by the duplicate-instantiation
guard is exactly the id given to the created canvas element, so after a
successful instantiation every further invocation on the same page takes
the guard's error path. -/
theorem C9_reserved_id_matches_canvas (p : Page) (w h : Nat) (a : String)
    (ps : Nat) (w2 h2 : Nat) (a2 : String) (ps2 : Nat) (nr2 wb2 : Bool)
    (hno : get_element_by_id p reservedId = none) :
    reservedId = winitCanvas.id ∧
    Winit (invoke p w h a ps true true) w2 h2 a2 ps2 nr2 wb2 =
      CompResult.returned [Op.log_error dupErrorMsg] none := by
  refine ⟨rfl, ?_⟩
  have h1 := Winit_eq_of_success p w h a ps hno
  have hpage : invoke p w h a ps true true =
      { elements := p.elements ++ [winitCanvas] } := by
    unfold invoke
    rw [h1]
    rfl
  have hfind : get_element_by_id { elements := p.elements ++ [winitCanvas] }
      reservedId = some winitCanvas := by
    unfold get_element_by_id at hno ⊢
    rw [find?_append_of_none _ _ _ hno]
    rfl
  rw [hpage]
  exact Winit_eq_of_found _ w2 h2 a2 ps2 nr2 wb2 winitCanvas hfind

/-- C9 witness: on the empty page a successful instantiation followed by a
second invocation hits the guard. -/
theorem C9_reserved_id_matches_canvas_witness :
    reservedId = winitCanvas.id ∧
    Winit (invoke { elements := [] } 1 2 "x" 0 true true) 3 4 "y" 1 true
        true =
      CompResult.returned [Op.log_error dupErrorMsg] none :=
  C9_reserved_id_matches_canvas { elements := [] } 1 2 "x" 0 3 4 "y" 1 true
    true rfl

end LeptosWinit
